import Mathlib

/-!
Verification of the SGP30 gas-sensor driver (`src/lib.rs`).

The driver is embedded shallowly:

* bytes are `Nat` values (the `u8`/`u16` arithmetic of the source is
  reproduced with explicit `% 256` where wrap-around matters);
* the pure checksum engine (`crc8`, `validate_crc`) is translated directly;
* the stateful driver is modelled by explicit state passing over a `Sgp30`
  record.  The I²C transport and delay collaborators of the source are
  external trait objects; they are modelled by an environment `Env` that
  resolves, per call index, the outcome of each bus write and bus read.
  Every transport call and delay is additionally recorded in an event trace
  on the driver state, so that "no bus activity" claims are about the trace.
* the `assert!` in `send_command_and_data` (a panic in Rust) is modelled by
  an `Option` result: `none` means the assertion fired and nothing further
  (in particular no bus activity) happened.
-/

namespace SGP30

/-- The CRC8 polynomial of the source (`CRC8_POLYNOMIAL`). -/
def CRC8_POLYNOMIAL : Nat := 0x31

/-- One iteration of the inner loop of `crc8`: on an 8-bit register,
`if (crc & 0x80) > 0 { crc = (crc << 1) ^ CRC8_POLYNOMIAL } else { crc <<= 1 }`.
The `u8` left shift wraps, hence the `% 256`. -/
def crc8Round (crc : Nat) : Nat :=
  if crc &&& 0x80 > 0 then ((crc <<< 1) % 256) ^^^ CRC8_POLYNOMIAL
  else (crc <<< 1) % 256

/-- The byte loop of `crc8`: XOR the byte into the register, then run the
inner loop eight times, then continue with the remaining bytes. -/
def crc8Go (crc : Nat) : List Nat → Nat
  | [] => crc
  | byte :: rest => crc8Go (crc8Round^[8] (crc ^^^ byte)) rest

/-- Source `crc8`: register initialised to `0xff`, then the byte
loop over the data. -/
def crc8 (data : List Nat) : Nat := crc8Go 0xff data

/-- All possible errors of the crate (`Error<E>`); the transport error type
`E` is modelled as `Nat`. -/
inductive Error
  /-- I²C bus error -/
  | I2c (e : Nat)
  /-- CRC checksum validation failed -/
  | Crc
  /-- Measurement requested before the initialization phase was started. -/
  | NotInitialized
  deriving DecidableEq, Repr

/-- Source `Sgp30::validate_crc`: walk the buffer in chunks of three bytes; a full
chunk whose third byte differs from the checksum of its first two bytes
fails with `Error::Crc`; a trailing chunk of fewer than three bytes is not
validated. -/
def validate_crc : List Nat → Except Error Unit
  | b0 :: b1 :: c :: rest =>
      if crc8 [b0, b1] ≠ c then Except.error Error.Crc
      else validate_crc rest
  | _ => Except.ok ()

/-!
### The checksum algorithm as the specification words it

For the refinement claim about the checksum engine, a second definition is
written following the specification text (§4.1): "standard CRC-8 with
polynomial 0x31, initial register 0xFF, no input/output reflection,
MSB-first.  For each byte: XOR into the register, then 8 times: if the top
bit is set, shift left and XOR with the polynomial; else shift left.  Final
register value is the checksum."  The top bit of the 8-bit register is set
exactly when its value modulo 256 is at least 128.
-/

/-- Iterated inner loop: `n` rounds, each as the specification words it. -/
def crc8SpecRounds : Nat → Nat → Nat
  | 0, reg => reg
  | n + 1, reg =>
      crc8SpecRounds n
        (if 128 ≤ reg % 256 then ((reg * 2) % 256) ^^^ 0x31 else (reg * 2) % 256)

/-- The checksum computation as the specification words it. -/
def crc8Spec (data : List Nat) : Nat :=
  data.foldl (fun reg byte => crc8SpecRounds 8 (reg ^^^ byte)) 0xff

theorem crc8Round_eq_spec (reg : Nat) :
    crc8Round reg =
      (if 128 ≤ reg % 256 then ((reg * 2) % 256) ^^^ 0x31 else (reg * 2) % 256) := by
  have hbit : (reg &&& 0x80 > 0) ↔ 128 ≤ reg % 256 := by
    have h1 : reg &&& 0x80 = (reg.testBit 7).toNat * 128 := by
      have := Nat.and_two_pow reg 7
      norm_num at this
      exact this
    have h2 : reg.testBit 7 = decide (reg / 128 % 2 = 1) := by
      rw [Nat.testBit_to_div_mod]
    rw [h1, h2]
    by_cases hmod : reg / 128 % 2 = 1
    · simp only [hmod, decide_True, Bool.toNat_true]
      omega
    · simp only [hmod, decide_False, Bool.toNat_false]
      omega
  have hshift : reg <<< 1 = reg * 2 := by
    rw [Nat.shiftLeft_eq]
  unfold crc8Round CRC8_POLYNOMIAL
  rw [hshift]
  simp only [hbit]

theorem crc8SpecRounds_eq_iterate (n reg : Nat) :
    crc8SpecRounds n reg = crc8Round^[n] reg := by
  induction n generalizing reg with
  | zero => rfl
  | succ n ih =>
      rw [Function.iterate_succ_apply, crc8SpecRounds, ih, crc8Round_eq_spec]

theorem crc8Go_eq_foldl (data : List Nat) (crc : Nat) :
    crc8Go crc data =
      data.foldl (fun reg byte => crc8SpecRounds 8 (reg ^^^ byte)) crc := by
  induction data generalizing crc with
  | nil => rfl
  | cons byte rest ih =>
      rw [crc8Go, List.foldl_cons, ih, crc8SpecRounds_eq_iterate]

/-- C3 — The checksum function implements CRC-8 with polynomial 0x31,
initial register 0xFF, no reflection, MSB-first (for each input byte: XOR
into the register, then 8 iterations of shift-left with conditional XOR of
the polynomial when the top bit is set): `crc8` agrees with the algorithm
transcribed from the specification's words on every input, and in
particular `crc8 [0xBE, 0xEF] = 0x92`. -/
theorem crc8_implements_spec :
    (∀ data : List Nat, crc8 data = crc8Spec data) ∧ crc8 [0xBE, 0xEF] = 0x92 :=
  ⟨fun data => crc8Go_eq_foldl data 0xff, by decide⟩

/-- C4 — For all bytes `a`, `b`, validating `[a, b, crc8 [a, b]]`
succeeds, and validating `[a, b, c]` for any `c ≠ crc8 [a, b]` fails with
`Error.Crc`. -/
theorem validate_crc_group (a b c : Nat) (hc : c ≠ crc8 [a, b]) :
    validate_crc [a, b, crc8 [a, b]] = Except.ok () ∧
    validate_crc [a, b, c] = Except.error Error.Crc := by
  constructor
  · unfold validate_crc
    rw [if_neg (by simp)]
    rfl
  · unfold validate_crc
    rw [if_pos (fun h => hc h.symm)]

/-- Witness for `validate_crc_group` at the datasheet vector
`crc8 [0xBE, 0xEF] = 0x92` and the wrong byte `0x91`. -/
theorem validate_crc_group_witness :
    validate_crc [0xBE, 0xEF, crc8 [0xBE, 0xEF]] = Except.ok () ∧
    validate_crc [0xBE, 0xEF, 0x91] = Except.error Error.Crc :=
  validate_crc_group 0xBE 0xEF 0x91 (by decide)

/-- C5 — Checksum validation partitions the buffer into consecutive
3-byte groups and never examines a trailing partial group: every buffer of
length at most 2 validates successfully, and on an 8-byte buffer the
outcome depends only on the first two 3-byte groups — it equals the outcome
on the first 6 bytes, whatever the trailing 2 bytes are. -/
theorem validate_crc_partial_groups :
    (∀ buf : List Nat, buf.length ≤ 2 → validate_crc buf = Except.ok ()) ∧
    (∀ b0 b1 b2 b3 b4 b5 g0 g1 : Nat,
      validate_crc [b0, b1, b2, b3, b4, b5, g0, g1] =
        validate_crc [b0, b1, b2, b3, b4, b5]) := by
  constructor
  · intro buf h
    match buf with
    | [] => rfl
    | [x] => rfl
    | [x, y] => rfl
    | x :: y :: z :: t => simp at h
  · intro b0 b1 b2 b3 b4 b5 g0 g1
    show validate_crc (b0 :: b1 :: b2 :: [b3, b4, b5, g0, g1]) = _
    unfold validate_crc
    rcases Decidable.em (crc8 [b0, b1] ≠ b2) with h | h
    · rw [if_pos h, if_pos h]
    · rw [if_neg h, if_neg h]
      show validate_crc (b3 :: b4 :: b5 :: [g0, g1]) = _
      unfold validate_crc
      rcases Decidable.em (crc8 [b3, b4] ≠ b5) with h2 | h2
      · rw [if_pos h2, if_pos h2]
      · rw [if_neg h2, if_neg h2]
        rfl

/-- Witness for `validate_crc_partial_groups`: a 2-byte buffer validates,
and an 8-byte buffer validates like its first 6 bytes. -/
theorem validate_crc_partial_groups_witness :
    validate_crc [0xBE, 0xEF] = Except.ok () ∧
    validate_crc [0xBE, 0xEF, 0x92, 0xBE, 0xEF, 0x92, 7, 9] =
      validate_crc [0xBE, 0xEF, 0x92, 0xBE, 0xEF, 0x92] :=
  ⟨validate_crc_partial_groups.1 [0xBE, 0xEF] (by decide),
   validate_crc_partial_groups.2 0xBE 0xEF 0x92 0xBE 0xEF 0x92 7 9⟩

/-!
### The driver state machine

The driver owns an I²C transport and a delay source.  Both are external
trait objects in the source; here a call to the transport is resolved by an
environment `Env`: the `i`-th bus write succeeds when `env.writes i = none`
and fails with bus error `e` when `env.writes i = some e`; the `i`-th bus
read either fails or yields the bytes the sensor put on the wire.  Every
transport call and every delay is recorded in an event trace carried by the
driver state, so "no bus activity" is a statement about the trace.
-/

/-- Observable events at the transport / timing boundary. -/
inductive Event
  /-- Issued `i2c.write(address, payload)`. -/
  | write (addr : Nat) (payload : List Nat)
  /-- Issued `i2c.read(address, buf)` for a buffer of `len` bytes. -/
  | read (addr : Nat) (len : Nat)
  /-- Issued `delay.delay_us(us)`. -/
  | delayUs (us : Nat)
  /-- Issued `delay.delay_ms(ms)`. -/
  | delayMs (ms : Nat)
  deriving DecidableEq, Repr

/-- Resolution of the external collaborators: outcome of the `i`-th write
(`none` = accepted, `some e` = bus error `e`) and of the `i`-th read
(`Except.error e` = bus error, `Except.ok bytes` = the bytes read). -/
structure Env where
  writes : Nat → Option Nat
  reads : Nat → Except Nat (List Nat)

/-- The `Sgp30` driver handle: bus address, the `initialized` flag, the
number of writes and reads issued so far (indices into the environment),
and the trace of issued transport / timing events. -/
structure Sgp30 where
  address : Nat
  initialized : Bool
  wIdx : Nat
  rIdx : Nat
  trace : List Event
  deriving DecidableEq, Repr

/-- Source `Sgp30::new`: a fresh driver handle; `initialized` is `false`. -/
def Sgp30.new (address : Nat) : Sgp30 :=
  { address := address, initialized := false, wIdx := 0, rIdx := 0, trace := [] }

/-- Transport call `self.i2c.write(self.address, payload)`: record the write event and
consume the next write outcome from the environment. -/
def busWrite (env : Env) (payload : List Nat) (s : Sgp30) :
    Except Error Unit × Sgp30 :=
  let s1 : Sgp30 :=
    { s with wIdx := s.wIdx + 1, trace := s.trace ++ [Event.write s.address payload] }
  match env.writes s.wIdx with
  | none => (Except.ok (), s1)
  | some e => (Except.error (Error.I2c e), s1)

/-- Transport call `self.i2c.read(self.address, &mut buf)` for a buffer of `n` bytes:
record the read event and consume the next read outcome.  On success the
buffer holds the bytes delivered by the sensor (truncated or zero-padded to
the buffer length, since the transport fills the whole buffer). -/
def busRead (env : Env) (n : Nat) (s : Sgp30) :
    Except Error (List Nat) × Sgp30 :=
  let s1 : Sgp30 :=
    { s with rIdx := s.rIdx + 1, trace := s.trace ++ [Event.read s.address n] }
  match env.reads s.rIdx with
  | Except.error e => (Except.error (Error.I2c e), s1)
  | Except.ok bytes => (Except.ok (bytes.take n ++ List.replicate (n - bytes.length) 0), s1)

/-- Timing call `self.delay.delay_us(us)`. -/
def delayUsOp (us : Nat) (s : Sgp30) : Sgp30 :=
  { s with trace := s.trace ++ [Event.delayUs us] }

/-- Timing call `self.delay.delay_ms(ms)`. -/
def delayMsOp (ms : Nat) (s : Sgp30) : Sgp30 :=
  { s with trace := s.trace ++ [Event.delayMs ms] }

/-- The Rust `?` operator on a fallible step: propagate an error, otherwise
continue with the value and the updated driver state. -/
def bindStep {α β : Type} (x : Except Error α × Sgp30)
    (f : α → Sgp30 → Except Error β × Sgp30) : Except Error β × Sgp30 :=
  match x with
  | (Except.error e, s1) => (Except.error e, s1)
  | (Except.ok a, s1) => f a s1

/-- I²C commands sent to the sensor (`enum Command`). -/
inductive Command
  | GetSerial
  | SelfTest
  | InitAirQuality
  | MeasureAirQuality
  | MeasureRawSignals
  | GetBaseline
  | SetBaseline
  | SetHumidity
  | GetFeatureSet
  deriving DecidableEq, Repr

/-- Source `Command::as_bytes`: the fixed 2-byte code of each command. -/
def Command.as_bytes : Command → List Nat
  | Command.GetSerial => [0x36, 0x82]
  | Command.SelfTest => [0x20, 0x32]
  | Command.InitAirQuality => [0x20, 0x03]
  | Command.MeasureAirQuality => [0x20, 0x08]
  | Command.MeasureRawSignals => [0x20, 0x50]
  | Command.GetBaseline => [0x20, 0x15]
  | Command.SetBaseline => [0x20, 0x1E]
  | Command.SetHumidity => [0x20, 0x61]
  | Command.GetFeatureSet => [0x20, 0x2F]

/-- A single air quality measurement result. -/
structure Measurement where
  co2eq_ppm : Nat
  tvoc_ppb : Nat
  deriving DecidableEq, Repr

/-- The two raw sensor signals. -/
structure RawSignals where
  h2 : Nat
  ethanol : Nat
  deriving DecidableEq, Repr

/-- Baseline values of the correction algorithm. -/
structure Baseline where
  co2eq : Nat
  tvoc : Nat
  deriving DecidableEq, Repr

/-- Modelled from the spec: the `types` module (`mod types`) is not among
the sources.  §3: absolute humidity is held as an unsigned 16-bit
fixed-point value (8 integer bits, 8 fractional bits), big-endian on the
wire; only its wire encoding matters here. -/
structure Humidity where
  value16 : Nat
  deriving DecidableEq, Repr

/-- Modelled from the spec: big-endian wire bytes of the 16-bit humidity
value. -/
def Humidity.as_bytes (h : Humidity) : List Nat :=
  [h.value16 / 256 % 256, h.value16 % 256]

/-- Modelled from the spec: the sensor product family read from the feature
set (§3). -/
inductive ProductType
  | Sgp30
  | Unknown (code : Nat)
  deriving DecidableEq, Repr

/-- Feature set of the sensor. -/
structure FeatureSet where
  product_type : ProductType
  product_version : Nat
  deriving DecidableEq, Repr

/-- Modelled from the spec: the `types` module is not among the sources.
§4.4: the first response byte's high nibble selects the product type (0 =
the known sensor family, anything else is unknown-with-code); the second
byte is the version, verbatim. -/
def FeatureSet.parse (b0 b1 : Nat) : FeatureSet :=
  if b0 / 16 % 16 = 0 then ⟨ProductType.Sgp30, b1⟩
  else ⟨ProductType.Unknown (b0 / 16 % 16), b1⟩

/-- Source `Sgp30::send_command`: write the command's 2-byte code to the bus. -/
def Sgp30.send_command (env : Env) (command : Command) (s : Sgp30) :
    Except Error Unit × Sgp30 :=
  busWrite env command.as_bytes s

/-- Source `Sgp30::send_command_and_data`: `assert!(data.len() == 2 || data.len() == 4)`,
then write the command code followed by each 2-byte data word and its CRC8
checksum.  `none` models the assertion firing (a Rust panic): nothing is
written to the bus. -/
def Sgp30.send_command_and_data (env : Env) (command : Command)
    (data : List Nat) (s : Sgp30) : Option (Except Error Unit × Sgp30) :=
  if data.length = 2 ∨ data.length = 4 then
    let payload :=
      command.as_bytes ++ data.take 2 ++ [crc8 (data.take 2)] ++
        (if 2 < data.length then
          (data.drop 2).take 2 ++ [crc8 ((data.drop 2).take 2)]
         else [])
    some (busWrite env payload s)
  else
    none

/-- Source `Sgp30::read_with_crc`: read `n` bytes, then validate the checksums;
on a mismatch the buffer is discarded and `Error::Crc` is returned. -/
def Sgp30.read_with_crc (env : Env) (n : Nat) (s : Sgp30) :
    Except Error (List Nat) × Sgp30 :=
  bindStep (busRead env n s) fun buf s1 =>
    match validate_crc buf with
    | Except.error e => (Except.error e, s1)
    | Except.ok _ => (Except.ok buf, s1)

/-- Source `Sgp30::serial`: request the serial number, wait 500 µs, read 9 bytes
and keep the six data bytes. -/
def Sgp30.serial (env : Env) (s : Sgp30) : Except Error (List Nat) × Sgp30 :=
  bindStep (Sgp30.send_command env Command.GetSerial s) fun _ s1 =>
    bindStep (Sgp30.read_with_crc env 9 (delayUsOp 500 s1)) fun buf s3 =>
      (Except.ok [buf.getD 0 0, buf.getD 1 0, buf.getD 3 0, buf.getD 4 0,
                  buf.getD 6 0, buf.getD 7 0], s3)

/-- Source `Sgp30::selftest`: run the self-test, wait 220 ms, read 3 bytes and
compare the two data bytes with the success pattern `[0xd4, 0x00]`. -/
def Sgp30.selftest (env : Env) (s : Sgp30) : Except Error Bool × Sgp30 :=
  bindStep (Sgp30.send_command env Command.SelfTest s) fun _ s1 =>
    bindStep (Sgp30.read_with_crc env 3 (delayMsOp 220 s1)) fun buf s3 =>
      (Except.ok (buf.take 2 == [0xd4, 0x00]), s3)

/-- Source `Sgp30::force_init`: unconditionally send InitAirQuality, wait 10 ms,
and set the `initialized` flag. -/
def Sgp30.force_init (env : Env) (s : Sgp30) : Except Error Unit × Sgp30 :=
  bindStep (Sgp30.send_command env Command.InitAirQuality s) fun _ s1 =>
    (Except.ok (), { delayMsOp 10 s1 with initialized := true })

/-- Source `Sgp30::init`: a no-op when already initialized, otherwise exactly
`force_init`. -/
def Sgp30.init (env : Env) (s : Sgp30) : Except Error Unit × Sgp30 :=
  if s.initialized then (Except.ok (), s)
  else Sgp30.force_init env s

/-- Source `Sgp30::measure`: guarded by `initialized`; send MeasureAirQuality,
wait 12 ms, read 6 bytes, decode two big-endian words. -/
def Sgp30.measure (env : Env) (s : Sgp30) : Except Error Measurement × Sgp30 :=
  if !s.initialized then (Except.error Error.NotInitialized, s)
  else
    bindStep (Sgp30.send_command env Command.MeasureAirQuality s) fun _ s1 =>
      bindStep (Sgp30.read_with_crc env 6 (delayMsOp 12 s1)) fun buf s3 =>
        (Except.ok
          { co2eq_ppm := (buf.getD 0 0) <<< 8 ||| buf.getD 1 0,
            tvoc_ppb := (buf.getD 3 0) <<< 8 ||| buf.getD 4 0 }, s3)

/-- Source `Sgp30::measure_raw_signals`: guarded by `initialized`; send
MeasureRawSignals, wait 25 ms, read 6 bytes, decode two big-endian words. -/
def Sgp30.measure_raw_signals (env : Env) (s : Sgp30) :
    Except Error RawSignals × Sgp30 :=
  if !s.initialized then (Except.error Error.NotInitialized, s)
  else
    bindStep (Sgp30.send_command env Command.MeasureRawSignals s) fun _ s1 =>
      bindStep (Sgp30.read_with_crc env 6 (delayMsOp 25 s1)) fun buf s3 =>
        (Except.ok
          { h2 := (buf.getD 0 0) <<< 8 ||| buf.getD 1 0,
            ethanol := (buf.getD 3 0) <<< 8 ||| buf.getD 4 0 }, s3)

/-- Source `Sgp30::get_baseline`: send GetBaseline, wait 10 ms, read 6 bytes,
decode two big-endian words.  Not guarded. -/
def Sgp30.get_baseline (env : Env) (s : Sgp30) : Except Error Baseline × Sgp30 :=
  bindStep (Sgp30.send_command env Command.GetBaseline s) fun _ s1 =>
    bindStep (Sgp30.read_with_crc env 6 (delayMsOp 10 s1)) fun buf s3 =>
      (Except.ok
        { co2eq := (buf.getD 0 0) <<< 8 ||| buf.getD 1 0,
          tvoc := (buf.getD 3 0) <<< 8 ||| buf.getD 4 0 }, s3)

/-- Source `Sgp30::set_baseline`: guarded by `initialized`; write the two baseline
words big-endian via `send_command_and_data`, then wait 10 ms. -/
def Sgp30.set_baseline (env : Env) (baseline : Baseline) (s : Sgp30) :
    Option (Except Error Unit × Sgp30) :=
  if !s.initialized then some (Except.error Error.NotInitialized, s)
  else
    match Sgp30.send_command_and_data env Command.SetBaseline
        [baseline.co2eq / 256 % 256, baseline.co2eq % 256,
         baseline.tvoc / 256 % 256, baseline.tvoc % 256] s with
    | none => none
    | some (Except.error e, s1) => some (Except.error e, s1)
    | some (Except.ok _, s1) => some (Except.ok (), delayMsOp 10 s1)

/-- Source `Sgp30::set_humidity`: guarded by `initialized`; write the humidity
bytes (or `[0, 0]` for `None`) via `send_command_and_data`, then wait
10 ms. -/
def Sgp30.set_humidity (env : Env) (humidity : Option Humidity) (s : Sgp30) :
    Option (Except Error Unit × Sgp30) :=
  if !s.initialized then some (Except.error Error.NotInitialized, s)
  else
    match Sgp30.send_command_and_data env Command.SetHumidity
        (match humidity with
         | some humi => humi.as_bytes
         | none => [0, 0]) s with
    | none => none
    | some (Except.error e, s1) => some (Except.error e, s1)
    | some (Except.ok _, s1) => some (Except.ok (), delayMsOp 10 s1)

/-- Source `Sgp30::get_feature_set`: send GetFeatureSet, wait 2 ms, read 3 bytes,
parse the feature set.  Not guarded. -/
def Sgp30.get_feature_set (env : Env) (s : Sgp30) :
    Except Error FeatureSet × Sgp30 :=
  bindStep (Sgp30.send_command env Command.GetFeatureSet s) fun _ s1 =>
    bindStep (Sgp30.read_with_crc env 3 (delayMsOp 2 s1)) fun buf s3 =>
      (Except.ok (FeatureSet.parse (buf.getD 0 0) (buf.getD 1 0)), s3)

/-- The public operations of the driver, one constructor per method. -/
inductive Op
  | serialOp
  | selftestOp
  | initOp
  | forceInitOp
  | measureOp
  | measureRawOp
  | getBaselineOp
  | setBaselineOp (b : Baseline)
  | setHumidityOp (h : Option Humidity)
  | getFeatureSetOp

/-- Forget an operation's typed result, keeping only whether it failed
(and with which error) and the resulting driver state. -/
def exitOf {α : Type} : Except Error α × Sgp30 → Option Error × Sgp30
  | (Except.ok _, s) => (none, s)
  | (Except.error e, s) => (some e, s)

/-- Run one public operation; `none` models a panic (the assertion in
`send_command_and_data`), which never completes. -/
def runOp (op : Op) (env : Env) (s : Sgp30) : Option (Option Error × Sgp30) :=
  match op with
  | Op.serialOp => some (exitOf (Sgp30.serial env s))
  | Op.selftestOp => some (exitOf (Sgp30.selftest env s))
  | Op.initOp => some (exitOf (Sgp30.init env s))
  | Op.forceInitOp => some (exitOf (Sgp30.force_init env s))
  | Op.measureOp => some (exitOf (Sgp30.measure env s))
  | Op.measureRawOp => some (exitOf (Sgp30.measure_raw_signals env s))
  | Op.getBaselineOp => some (exitOf (Sgp30.get_baseline env s))
  | Op.setBaselineOp b => (Sgp30.set_baseline env b s).map exitOf
  | Op.setHumidityOp h => (Sgp30.set_humidity env h s).map exitOf
  | Op.getFeatureSetOp => some (exitOf (Sgp30.get_feature_set env s))

/-!
### Helper lemmas: which steps touch the `initialized` flag
-/

theorem busWrite_initialized (env : Env) (p : List Nat) (s : Sgp30) :
    (busWrite env p s).2.initialized = s.initialized := by
  unfold busWrite
  cases env.writes s.wIdx <;> rfl

theorem busRead_initialized (env : Env) (n : Nat) (s : Sgp30) :
    (busRead env n s).2.initialized = s.initialized := by
  unfold busRead
  cases env.reads s.rIdx <;> rfl

theorem bindStep_initialized {α β : Type} (x : Except Error α × Sgp30)
    (f : α → Sgp30 → Except Error β × Sgp30)
    (hf : ∀ a s1, (f a s1).2.initialized = s1.initialized) :
    (bindStep x f).2.initialized = x.2.initialized := by
  rcases x with ⟨r, s1⟩
  cases r with
  | error e => rfl
  | ok a => exact hf a s1

theorem read_with_crc_initialized (env : Env) (n : Nat) (s : Sgp30) :
    (Sgp30.read_with_crc env n s).2.initialized = s.initialized := by
  unfold Sgp30.read_with_crc
  rw [bindStep_initialized]
  · exact busRead_initialized env n s
  · intro a s1
    cases validate_crc a <;> rfl

theorem serial_initialized (env : Env) (s : Sgp30) :
    (Sgp30.serial env s).2.initialized = s.initialized := by
  unfold Sgp30.serial
  rw [bindStep_initialized]
  · exact busWrite_initialized env _ s
  · intro a s1
    rw [bindStep_initialized]
    · exact read_with_crc_initialized env 9 (delayUsOp 500 s1)
    · intro b s3
      rfl

theorem selftest_initialized (env : Env) (s : Sgp30) :
    (Sgp30.selftest env s).2.initialized = s.initialized := by
  unfold Sgp30.selftest
  rw [bindStep_initialized]
  · exact busWrite_initialized env _ s
  · intro a s1
    rw [bindStep_initialized]
    · exact read_with_crc_initialized env 3 (delayMsOp 220 s1)
    · intro b s3
      rfl

theorem get_baseline_initialized (env : Env) (s : Sgp30) :
    (Sgp30.get_baseline env s).2.initialized = s.initialized := by
  unfold Sgp30.get_baseline
  rw [bindStep_initialized]
  · exact busWrite_initialized env _ s
  · intro a s1
    rw [bindStep_initialized]
    · exact read_with_crc_initialized env 6 (delayMsOp 10 s1)
    · intro b s3
      rfl

theorem get_feature_set_initialized (env : Env) (s : Sgp30) :
    (Sgp30.get_feature_set env s).2.initialized = s.initialized := by
  unfold Sgp30.get_feature_set
  rw [bindStep_initialized]
  · exact busWrite_initialized env _ s
  · intro a s1
    rw [bindStep_initialized]
    · exact read_with_crc_initialized env 3 (delayMsOp 2 s1)
    · intro b s3
      rfl

theorem measure_initialized (env : Env) (s : Sgp30) :
    (Sgp30.measure env s).2.initialized = s.initialized := by
  unfold Sgp30.measure
  cases hi : s.initialized with
  | false =>
      rw [if_pos (by simp [hi])]
      exact hi
  | true =>
      rw [if_neg (by simp [hi])]
      rw [bindStep_initialized]
      · exact (busWrite_initialized env _ s).trans hi
      · intro a s1
        rw [bindStep_initialized]
        · exact read_with_crc_initialized env 6 (delayMsOp 12 s1)
        · intro b s3
          rfl

theorem measure_raw_signals_initialized (env : Env) (s : Sgp30) :
    (Sgp30.measure_raw_signals env s).2.initialized = s.initialized := by
  unfold Sgp30.measure_raw_signals
  cases hi : s.initialized with
  | false =>
      rw [if_pos (by simp [hi])]
      exact hi
  | true =>
      rw [if_neg (by simp [hi])]
      rw [bindStep_initialized]
      · exact (busWrite_initialized env _ s).trans hi
      · intro a s1
        rw [bindStep_initialized]
        · exact read_with_crc_initialized env 6 (delayMsOp 25 s1)
        · intro b s3
          rfl

/-!
### Helper lemmas: `send_command_and_data` on the two accepted lengths,
and the two possible runs of `force_init`.
-/

theorem send_command_and_data_two (env : Env) (cmd : Command) (d0 d1 : Nat)
    (s : Sgp30) :
    Sgp30.send_command_and_data env cmd [d0, d1] s =
      some (busWrite env (cmd.as_bytes ++ [d0, d1, crc8 [d0, d1]]) s) := by
  unfold Sgp30.send_command_and_data
  simp [List.take, List.drop]

theorem send_command_and_data_four (env : Env) (cmd : Command) (d0 d1 d2 d3 : Nat)
    (s : Sgp30) :
    Sgp30.send_command_and_data env cmd [d0, d1, d2, d3] s =
      some (busWrite env
        (cmd.as_bytes ++ [d0, d1, crc8 [d0, d1], d2, d3, crc8 [d2, d3]]) s) := by
  unfold Sgp30.send_command_and_data
  simp [List.take, List.drop]

theorem send_command_and_data_isSome (env : Env) (cmd : Command)
    (data : List Nat) (s : Sgp30) :
    (Sgp30.send_command_and_data env cmd data s).isSome = true ↔
      (data.length = 2 ∨ data.length = 4) := by
  unfold Sgp30.send_command_and_data
  by_cases h : data.length = 2 ∨ data.length = 4
  · rw [if_pos h]
    simp [h]
  · rw [if_neg h]
    simp [h]

theorem force_init_of_write_ok (env : Env) (s : Sgp30)
    (h : env.writes s.wIdx = none) :
    Sgp30.force_init env s =
      (Except.ok (),
       { s with wIdx := s.wIdx + 1, initialized := true,
                trace := s.trace ++
                  [Event.write s.address [0x20, 0x03], Event.delayMs 10] }) := by
  unfold Sgp30.force_init Sgp30.send_command busWrite bindStep delayMsOp
  simp [h, Command.as_bytes]

theorem force_init_of_write_err (env : Env) (s : Sgp30) (e : Nat)
    (h : env.writes s.wIdx = some e) :
    Sgp30.force_init env s =
      (Except.error (Error.I2c e),
       { s with wIdx := s.wIdx + 1,
                trace := s.trace ++ [Event.write s.address [0x20, 0x03]] }) := by
  unfold Sgp30.force_init Sgp30.send_command busWrite bindStep
  simp [h, Command.as_bytes]

theorem set_baseline_initialized (env : Env) (b : Baseline) (s : Sgp30)
    (r : Except Error Unit × Sgp30) (h : Sgp30.set_baseline env b s = some r) :
    r.2.initialized = s.initialized := by
  unfold Sgp30.set_baseline at h
  cases hi : s.initialized with
  | false =>
      rw [if_pos (by simp [hi])] at h
      simp only [Option.some.injEq] at h
      subst h
      exact hi
  | true =>
      rw [if_neg (by simp [hi]), send_command_and_data_four] at h
      have hbw := busWrite_initialized env
        (Command.SetBaseline.as_bytes ++
          [b.co2eq / 256 % 256, b.co2eq % 256,
           crc8 [b.co2eq / 256 % 256, b.co2eq % 256],
           b.tvoc / 256 % 256, b.tvoc % 256,
           crc8 [b.tvoc / 256 % 256, b.tvoc % 256]]) s
      rcases hb : busWrite env
        (Command.SetBaseline.as_bytes ++
          [b.co2eq / 256 % 256, b.co2eq % 256,
           crc8 [b.co2eq / 256 % 256, b.co2eq % 256],
           b.tvoc / 256 % 256, b.tvoc % 256,
           crc8 [b.tvoc / 256 % 256, b.tvoc % 256]]) s with ⟨rr, s1⟩
      rw [hb] at h hbw
      cases rr with
      | error e =>
          simp only [Option.some.injEq] at h
          subst h
          exact hbw.trans hi
      | ok a =>
          simp only [Option.some.injEq] at h
          subst h
          exact hbw.trans hi

theorem set_humidity_initialized (env : Env) (hum : Option Humidity) (s : Sgp30)
    (r : Except Error Unit × Sgp30) (h : Sgp30.set_humidity env hum s = some r) :
    r.2.initialized = s.initialized := by
  unfold Sgp30.set_humidity at h
  cases hi : s.initialized with
  | false =>
      rw [if_pos (by simp [hi])] at h
      simp only [Option.some.injEq] at h
      subst h
      exact hi
  | true =>
      rw [if_neg (by simp [hi])] at h
      rcases hd : (match hum with
          | some humi => humi.as_bytes
          | none => [0, 0]) with _ | ⟨x0, _ | ⟨x1, t⟩⟩
      all_goals rw [hd] at h
      · rw [show Sgp30.send_command_and_data env Command.SetHumidity [] s = none
            from rfl] at h
        exact absurd h (by simp)
      · rw [show Sgp30.send_command_and_data env Command.SetHumidity [x0] s = none
            from rfl] at h
        exact absurd h (by simp)
      · have ht : t = [] := by
          rcases hum with _ | hu
          · simp at hd
            exact hd.2.2
          · simp [Humidity.as_bytes] at hd
            exact hd.2.2
        subst ht
        rw [send_command_and_data_two] at h
        have hbw := busWrite_initialized env
          (Command.SetHumidity.as_bytes ++ [x0, x1, crc8 [x0, x1]]) s
        rcases hb : busWrite env
          (Command.SetHumidity.as_bytes ++ [x0, x1, crc8 [x0, x1]]) s with ⟨rr, s1⟩
        rw [hb] at h hbw
        cases rr with
        | error e =>
            simp only [Option.some.injEq] at h
            subst h
            exact hbw.trans hi
        | ok a =>
            simp only [Option.some.injEq] at h
            subst h
            exact hbw.trans hi

/-!
### Helper lemmas: characterizing single runs
-/

theorem busWrite_ok (env : Env) (p : List Nat) (s : Sgp30)
    (hw : env.writes s.wIdx = none) :
    busWrite env p s =
      (Except.ok (), { s with wIdx := s.wIdx + 1,
                              trace := s.trace ++ [Event.write s.address p] }) := by
  unfold busWrite
  rw [hw]

theorem busWrite_err (env : Env) (p : List Nat) (s : Sgp30) (e : Nat)
    (hw : env.writes s.wIdx = some e) :
    busWrite env p s =
      (Except.error (Error.I2c e),
       { s with wIdx := s.wIdx + 1,
                trace := s.trace ++ [Event.write s.address p] }) := by
  unfold busWrite
  rw [hw]

theorem busRead_ok (env : Env) (n : Nat) (s : Sgp30) (bytes : List Nat)
    (hr : env.reads s.rIdx = Except.ok bytes) :
    busRead env n s =
      (Except.ok (bytes.take n ++ List.replicate (n - bytes.length) 0),
       { s with rIdx := s.rIdx + 1,
                trace := s.trace ++ [Event.read s.address n] }) := by
  unfold busRead
  rw [hr]

theorem read_with_crc_ok (env : Env) (n : Nat) (s : Sgp30) (bytes : List Nat)
    (hr : env.reads s.rIdx = Except.ok bytes) (hlen : bytes.length = n)
    (hv : validate_crc bytes = Except.ok ()) :
    Sgp30.read_with_crc env n s =
      (Except.ok bytes, { s with rIdx := s.rIdx + 1,
                                 trace := s.trace ++ [Event.read s.address n] }) := by
  have hfill : bytes.take n ++ List.replicate (n - bytes.length) 0 = bytes := by
    subst hlen
    simp
  unfold Sgp30.read_with_crc
  rw [busRead_ok env n s bytes hr, hfill]
  simp only [bindStep]
  rw [hv]

theorem read_with_crc_of_invalid (env : Env) (n : Nat) (s : Sgp30) (bytes : List Nat)
    (hr : env.reads s.rIdx = Except.ok bytes)
    (hv : validate_crc (bytes.take n ++ List.replicate (n - bytes.length) 0) =
      Except.error Error.Crc) :
    Sgp30.read_with_crc env n s =
      (Except.error Error.Crc,
       { s with rIdx := s.rIdx + 1,
                trace := s.trace ++ [Event.read s.address n] }) := by
  unfold Sgp30.read_with_crc
  rw [busRead_ok env n s bytes hr]
  simp only [bindStep]
  rw [hv]

/-- Big-endian recombination: `(hi << 8) | lo = hi * 256 + lo` for `lo < 256`. -/
theorem shiftLeft8_or (hi lo : Nat) (h : lo < 256) :
    hi <<< 8 ||| lo = hi * 256 + lo := by
  have h2 : lo < 2 ^ 8 := h
  rw [Nat.shiftLeft_eq, Nat.mul_comm hi (2 ^ 8), ← Nat.mul_add_lt_is_or h2 hi]

theorem exitOf_snd {α : Type} (x : Except Error α × Sgp30) : (exitOf x).2 = x.2 := by
  rcases x with ⟨r, t⟩
  cases r <;> rfl

/-- The `initialized` flag after any single operation: either it is
untouched, or the operation was `init`/`force_init`, succeeded, and left
the flag set. -/
theorem runOp_initialized_cases (op : Op) (env : Env) (s : Sgp30)
    (oe : Option Error) (s2 : Sgp30) (h : runOp op env s = some (oe, s2)) :
    s2.initialized = s.initialized ∨
    ((op = Op.initOp ∨ op = Op.forceInitOp) ∧ oe = none ∧ s2.initialized = true) := by
  cases op with
  | serialOp =>
      left
      simp only [runOp, Option.some.injEq] at h
      have hs2 : (exitOf (Sgp30.serial env s)).2 = s2 := congrArg Prod.snd h
      rw [← hs2, exitOf_snd]
      exact serial_initialized env s
  | selftestOp =>
      left
      simp only [runOp, Option.some.injEq] at h
      have hs2 : (exitOf (Sgp30.selftest env s)).2 = s2 := congrArg Prod.snd h
      rw [← hs2, exitOf_snd]
      exact selftest_initialized env s
  | measureOp =>
      left
      simp only [runOp, Option.some.injEq] at h
      have hs2 : (exitOf (Sgp30.measure env s)).2 = s2 := congrArg Prod.snd h
      rw [← hs2, exitOf_snd]
      exact measure_initialized env s
  | measureRawOp =>
      left
      simp only [runOp, Option.some.injEq] at h
      have hs2 : (exitOf (Sgp30.measure_raw_signals env s)).2 = s2 := congrArg Prod.snd h
      rw [← hs2, exitOf_snd]
      exact measure_raw_signals_initialized env s
  | getBaselineOp =>
      left
      simp only [runOp, Option.some.injEq] at h
      have hs2 : (exitOf (Sgp30.get_baseline env s)).2 = s2 := congrArg Prod.snd h
      rw [← hs2, exitOf_snd]
      exact get_baseline_initialized env s
  | getFeatureSetOp =>
      left
      simp only [runOp, Option.some.injEq] at h
      have hs2 : (exitOf (Sgp30.get_feature_set env s)).2 = s2 := congrArg Prod.snd h
      rw [← hs2, exitOf_snd]
      exact get_feature_set_initialized env s
  | setBaselineOp b =>
      left
      simp only [runOp] at h
      rcases hsb : Sgp30.set_baseline env b s with _ | r
      · rw [hsb] at h
        exact absurd h (by simp)
      · rw [hsb] at h
        simp only [Option.map_some', Option.some.injEq] at h
        have hs2 : (exitOf r).2 = s2 := congrArg Prod.snd h
        rw [← hs2, exitOf_snd]
        exact set_baseline_initialized env b s r hsb
  | setHumidityOp hum =>
      left
      simp only [runOp] at h
      rcases hsb : Sgp30.set_humidity env hum s with _ | r
      · rw [hsb] at h
        exact absurd h (by simp)
      · rw [hsb] at h
        simp only [Option.map_some', Option.some.injEq] at h
        have hs2 : (exitOf r).2 = s2 := congrArg Prod.snd h
        rw [← hs2, exitOf_snd]
        exact set_humidity_initialized env hum s r hsb
  | initOp =>
      simp only [runOp, Option.some.injEq] at h
      unfold Sgp30.init at h
      by_cases hi : s.initialized = true
      · rw [if_pos hi] at h
        left
        have hs2 : (exitOf ((Except.ok (), s) : Except Error Unit × Sgp30)).2 = s2 :=
          congrArg Prod.snd h
        rw [← hs2]
        rfl
      · rw [if_neg hi] at h
        cases hw : env.writes s.wIdx with
        | none =>
            rw [force_init_of_write_ok env s hw] at h
            simp only [exitOf] at h
            injection h with h1 h2
            subst h2
            exact Or.inr ⟨Or.inl rfl, h1.symm, rfl⟩
        | some e =>
            rw [force_init_of_write_err env s e hw] at h
            simp only [exitOf] at h
            injection h with h1 h2
            subst h2
            exact Or.inl rfl
  | forceInitOp =>
      simp only [runOp, Option.some.injEq] at h
      cases hw : env.writes s.wIdx with
      | none =>
          rw [force_init_of_write_ok env s hw] at h
          simp only [exitOf] at h
          injection h with h1 h2
          subst h2
          exact Or.inr ⟨Or.inr rfl, h1.symm, rfl⟩
      | some e =>
          rw [force_init_of_write_err env s e hw] at h
          simp only [exitOf] at h
          injection h with h1 h2
          subst h2
          exact Or.inl rfl

/-!
### Concrete environments and counting, for claims and witnesses
-/

/-- An environment in which every write is accepted and every read returns
an empty byte list. -/
def envOk : Env :=
  { writes := fun _ => none, reads := fun _ => Except.ok [] }

/-- An environment delivering the datasheet measurement response on every
read. -/
def envMeasure : Env :=
  { writes := fun _ => none,
    reads := fun _ => Except.ok [0x12, 0x34, 0x37, 0xD4, 0x02, 0xA4] }

/-- An environment delivering the self-test success pattern on every
read. -/
def envSelftest : Env :=
  { writes := fun _ => none,
    reads := fun _ => Except.ok [0xD4, 0x00, 0xC6] }

/-- An environment delivering a checksum-corrupted response on every read
(the third byte should be `crc8 [0xBE, 0xEF] = 0x92`). -/
def envBadCrc : Env :=
  { writes := fun _ => none,
    reads := fun _ => Except.ok [0xBE, 0xEF, 0x91, 0xBE, 0xEF, 0x92] }

/-- A driver state that has been marked initialized, for witnesses. -/
def sgpInit (a : Nat) : Sgp30 :=
  { Sgp30.new a with initialized := true }

/-- Number of bus writes with the given payload in a trace. -/
def countCmdWrites (payload : List Nat) (tr : List Event) : Nat :=
  (tr.filter fun e =>
    match e with
    | Event.write _ p => p == payload
    | _ => false).length

/-- The length of a data argument when its checksum bytes are counted:
each 2-byte word is followed by one checksum byte on the wire. -/
def lenWithChecksums (data : List Nat) : Nat :=
  data.length + data.length / 2

/-!
### The claims about the driver state machine
-/

/-- C1 — In every driver state with `initialized = false`, each of the
four measurement-class operations returns the `NotInitialized` error and
leaves the driver state — in particular the transport trace — untouched,
so no write and no read is issued to the bus. -/
theorem measurement_ops_guarded (env : Env) (s : Sgp30) (b : Baseline)
    (hum : Option Humidity) (hs : s.initialized = false) :
    Sgp30.measure env s = (Except.error Error.NotInitialized, s) ∧
    Sgp30.measure_raw_signals env s = (Except.error Error.NotInitialized, s) ∧
    Sgp30.set_baseline env b s = some (Except.error Error.NotInitialized, s) ∧
    Sgp30.set_humidity env hum s = some (Except.error Error.NotInitialized, s) ∧
    (Sgp30.measure env s).2.trace = s.trace ∧
    (Sgp30.measure_raw_signals env s).2.trace = s.trace := by
  have h1 : Sgp30.measure env s = (Except.error Error.NotInitialized, s) := by
    unfold Sgp30.measure
    rw [if_pos (by simp [hs])]
  have h2 : Sgp30.measure_raw_signals env s = (Except.error Error.NotInitialized, s) := by
    unfold Sgp30.measure_raw_signals
    rw [if_pos (by simp [hs])]
  have h3 : Sgp30.set_baseline env b s = some (Except.error Error.NotInitialized, s) := by
    unfold Sgp30.set_baseline
    rw [if_pos (by simp [hs])]
  have h4 : Sgp30.set_humidity env hum s = some (Except.error Error.NotInitialized, s) := by
    unfold Sgp30.set_humidity
    rw [if_pos (by simp [hs])]
  exact ⟨h1, h2, h3, h4, by rw [h1], by rw [h2]⟩

/-- Witness for `measurement_ops_guarded` on a freshly constructed driver. -/
theorem measurement_ops_guarded_witness :
    Sgp30.measure envOk (Sgp30.new 0x58) =
      (Except.error Error.NotInitialized, Sgp30.new 0x58) ∧
    Sgp30.measure_raw_signals envOk (Sgp30.new 0x58) =
      (Except.error Error.NotInitialized, Sgp30.new 0x58) ∧
    Sgp30.set_baseline envOk ⟨0x1234, 0x5678⟩ (Sgp30.new 0x58) =
      some (Except.error Error.NotInitialized, Sgp30.new 0x58) ∧
    Sgp30.set_humidity envOk none (Sgp30.new 0x58) =
      some (Except.error Error.NotInitialized, Sgp30.new 0x58) ∧
    (Sgp30.measure envOk (Sgp30.new 0x58)).2.trace = (Sgp30.new 0x58).trace ∧
    (Sgp30.measure_raw_signals envOk (Sgp30.new 0x58)).2.trace =
      (Sgp30.new 0x58).trace :=
  measurement_ops_guarded envOk (Sgp30.new 0x58) ⟨0x1234, 0x5678⟩ none rfl

/-- C2 — Starting from a freshly constructed driver whose first write
is accepted: the first `init` succeeds, its trace is one InitAirQuality
write followed by the 10 ms delay; a second `init` returns success with
the state (hence trace) unchanged — no bus activity and no delay; the
trace after two `init` calls holds exactly one InitAirQuality write while
two `force_init` calls leave exactly two; and on any state with
`initialized = false`, `init` is exactly `force_init`. -/
theorem init_twice_single_write (env : Env) (a : Nat) (s : Sgp30)
    (h0 : env.writes 0 = none) (hs : s.initialized = false) :
    (Sgp30.init env (Sgp30.new a)).1 = Except.ok () ∧
    (Sgp30.init env (Sgp30.new a)).2.trace =
      [Event.write a [0x20, 0x03], Event.delayMs 10] ∧
    Sgp30.init env (Sgp30.init env (Sgp30.new a)).2 =
      (Except.ok (), (Sgp30.init env (Sgp30.new a)).2) ∧
    countCmdWrites [0x20, 0x03]
      (Sgp30.init env (Sgp30.init env (Sgp30.new a)).2).2.trace = 1 ∧
    countCmdWrites [0x20, 0x03]
      (Sgp30.force_init env (Sgp30.force_init env (Sgp30.new a)).2).2.trace = 2 ∧
    Sgp30.init env s = Sgp30.force_init env s := by
  have hfirst : Sgp30.init env (Sgp30.new a) =
      (Except.ok (),
       { address := a, initialized := true, wIdx := 1, rIdx := 0,
         trace := [Event.write a [0x20, 0x03], Event.delayMs 10] }) := by
    unfold Sgp30.init
    rw [if_neg (by simp [Sgp30.new]), force_init_of_write_ok env (Sgp30.new a) h0]
    rfl
  have hsecond : Sgp30.init env
      ({ address := a, initialized := true, wIdx := 1, rIdx := 0,
         trace := [Event.write a [0x20, 0x03], Event.delayMs 10] } : Sgp30) =
      (Except.ok (),
       { address := a, initialized := true, wIdx := 1, rIdx := 0,
         trace := [Event.write a [0x20, 0x03], Event.delayMs 10] }) := by
    unfold Sgp30.init
    rw [if_pos rfl]
  have hforce : Sgp30.force_init env (Sgp30.new a) =
      (Except.ok (),
       { address := a, initialized := true, wIdx := 1, rIdx := 0,
         trace := [Event.write a [0x20, 0x03], Event.delayMs 10] }) := by
    rw [force_init_of_write_ok env (Sgp30.new a) h0]
    rfl
  refine ⟨by rw [hfirst], by rw [hfirst], ?_, ?_, ?_, ?_⟩
  · rw [hfirst]
    exact hsecond
  · rw [hfirst]
    rw [show (Except.ok (),
       ({ address := a, initialized := true, wIdx := 1, rIdx := 0,
          trace := [Event.write a [0x20, 0x03], Event.delayMs 10] } : Sgp30)).2 =
       ({ address := a, initialized := true, wIdx := 1, rIdx := 0,
          trace := [Event.write a [0x20, 0x03], Event.delayMs 10] } : Sgp30) from rfl]
    rw [hsecond]
    rfl
  · rw [hforce]
    cases h1 : env.writes 1 with
    | none =>
        rw [force_init_of_write_ok env _ h1]
        rfl
    | some e =>
        rw [force_init_of_write_err env _ e h1]
        rfl
  · unfold Sgp30.init
    rw [if_neg (by simp [hs])]

/-- Witness for `init_twice_single_write` at a concrete address and
environment. -/
theorem init_twice_single_write_witness :
    (Sgp30.init envOk (Sgp30.new 0x58)).1 = Except.ok () ∧
    (Sgp30.init envOk (Sgp30.new 0x58)).2.trace =
      [Event.write 0x58 [0x20, 0x03], Event.delayMs 10] ∧
    Sgp30.init envOk (Sgp30.init envOk (Sgp30.new 0x58)).2 =
      (Except.ok (), (Sgp30.init envOk (Sgp30.new 0x58)).2) ∧
    countCmdWrites [0x20, 0x03]
      (Sgp30.init envOk (Sgp30.init envOk (Sgp30.new 0x58)).2).2.trace = 1 ∧
    countCmdWrites [0x20, 0x03]
      (Sgp30.force_init envOk (Sgp30.force_init envOk (Sgp30.new 0x58)).2).2.trace = 2 ∧
    Sgp30.init envOk (Sgp30.new 0x60) = Sgp30.force_init envOk (Sgp30.new 0x60) :=
  init_twice_single_write envOk 0x58 (Sgp30.new 0x60) rfl rfl

/-- Counterexample to C6 as stated: the data `[0, 0]` (one 2-byte
word) is accepted by the encoder — `send_command_and_data` issues a bus
write for it — although its length counting checksum bytes is 3, which is
neither 4 nor 8. -/
theorem send_command_and_data_len_counterexample :
    (Sgp30.send_command_and_data envOk Command.SetHumidity [0, 0]
      (sgpInit 0x58)).isSome = true ∧
    ¬(lenWithChecksums [0, 0] = 4 ∨ lenWithChecksums [0, 0] = 8) := by
  constructor
  · rw [send_command_and_data_two]
    rfl
  · decide

/-- C6 (amended) — The encoder accepts a data argument exactly when
its raw length is 2 or 4 bytes, i.e. 3 or 6 bytes when counting checksum
bytes (one or two 2-byte words each followed by its checksum byte); any
other length is rejected by the assertion before any bus activity occurs
(`none`: the panic fires and nothing is written), and for the accepted
lengths the written payload is the command's 2 bytes followed by
`[data(2), checksum(1)]` once or twice. -/
theorem send_command_and_data_contract (env : Env) (cmd : Command) (s : Sgp30)
    (d0 d1 d2 d3 : Nat) :
    (∀ data : List Nat,
      (Sgp30.send_command_and_data env cmd data s).isSome = true ↔
        (data.length = 2 ∨ data.length = 4)) ∧
    (∀ data : List Nat,
      (Sgp30.send_command_and_data env cmd data s).isSome = true ↔
        (lenWithChecksums data = 3 ∨ lenWithChecksums data = 6)) ∧
    Sgp30.send_command_and_data env cmd [d0, d1] s =
      some (busWrite env (cmd.as_bytes ++ [d0, d1, crc8 [d0, d1]]) s) ∧
    Sgp30.send_command_and_data env cmd [d0, d1, d2, d3] s =
      some (busWrite env
        (cmd.as_bytes ++ [d0, d1, crc8 [d0, d1], d2, d3, crc8 [d2, d3]]) s) ∧
    (busWrite env (cmd.as_bytes ++ [d0, d1, crc8 [d0, d1]]) s).2.trace =
      s.trace ++ [Event.write s.address (cmd.as_bytes ++ [d0, d1, crc8 [d0, d1]])] ∧
    (busWrite env
        (cmd.as_bytes ++ [d0, d1, crc8 [d0, d1], d2, d3, crc8 [d2, d3]]) s).2.trace =
      s.trace ++ [Event.write s.address
        (cmd.as_bytes ++ [d0, d1, crc8 [d0, d1], d2, d3, crc8 [d2, d3]])] := by
  refine ⟨fun data => send_command_and_data_isSome env cmd data s, ?_, ?_, ?_, ?_, ?_⟩
  · intro data
    rw [send_command_and_data_isSome env cmd data s]
    unfold lenWithChecksums
    omega
  · exact send_command_and_data_two env cmd d0 d1 s
  · exact send_command_and_data_four env cmd d0 d1 d2 d3 s
  · cases hw : env.writes s.wIdx with
    | none => rw [busWrite_ok env _ s hw]
    | some e => rw [busWrite_err env _ s e hw]
  · cases hw : env.writes s.wIdx with
    | none => rw [busWrite_ok env _ s hw]
    | some e => rw [busWrite_err env _ s e hw]

/-- Witness for `send_command_and_data_contract`: a rejected length-3 data
argument, and an accepted one-word payload. -/
theorem send_command_and_data_contract_witness :
    ((Sgp30.send_command_and_data envOk Command.SetBaseline [1, 2, 3]
        (sgpInit 0x58)).isSome = true ↔
      (([1, 2, 3] : List Nat).length = 2 ∨ ([1, 2, 3] : List Nat).length = 4)) ∧
    Sgp30.send_command_and_data envOk Command.SetBaseline [1, 2] (sgpInit 0x58) =
      some (busWrite envOk (Command.SetBaseline.as_bytes ++ [1, 2, crc8 [1, 2]])
        (sgpInit 0x58)) :=
  ⟨(send_command_and_data_contract envOk Command.SetBaseline (sgpInit 0x58)
      1 2 0 0).1 [1, 2, 3],
   (send_command_and_data_contract envOk Command.SetBaseline (sgpInit 0x58)
      1 2 0 0).2.2.1⟩

/-- C7 — After a successful MeasureAirQuality transaction whose
checksum-validated 6-byte response consists of two groups, `measure`
returns the big-endian 16-bit value of the first group's data bytes as
`co2eq_ppm` and of the second group's as `tvoc_ppb`. -/
theorem measure_decodes_big_endian (env : Env) (s : Sgp30)
    (b0 b1 b2 b3 b4 b5 : Nat)
    (hinit : s.initialized = true)
    (hw : env.writes s.wIdx = none)
    (hr : env.reads s.rIdx = Except.ok [b0, b1, b2, b3, b4, b5])
    (hb1 : b1 < 256) (hb4 : b4 < 256)
    (hc1 : crc8 [b0, b1] = b2) (hc2 : crc8 [b3, b4] = b5) :
    (Sgp30.measure env s).1 =
      Except.ok { co2eq_ppm := b0 * 256 + b1, tvoc_ppb := b3 * 256 + b4 } := by
  have hv : validate_crc [b0, b1, b2, b3, b4, b5] = Except.ok () := by
    simp [validate_crc, hc1, hc2]
  unfold Sgp30.measure
  rw [if_neg (by simp [hinit])]
  unfold Sgp30.send_command
  rw [busWrite_ok env _ s hw]
  simp only [bindStep]
  rw [read_with_crc_ok env 6
    (delayMsOp 12
      { s with
          wIdx := s.wIdx + 1,
          trace := s.trace ++ [Event.write s.address Command.MeasureAirQuality.as_bytes] })
    [b0, b1, b2, b3, b4, b5] hr rfl hv]
  simp only [bindStep]
  simp [shiftLeft8_or b0 b1 hb1, shiftLeft8_or b3 b4 hb4]

/-- Witness for `measure_decodes_big_endian`: the datasheet response bytes
`[0x12, 0x34, 0x37, 0xD4, 0x02, 0xA4]` decode to 4660 ppm and 54274 ppb. -/
theorem measure_decodes_big_endian_witness :
    (Sgp30.measure envMeasure (sgpInit 0x58)).1 =
      Except.ok { co2eq_ppm := 4660, tvoc_ppb := 54274 } :=
  measure_decodes_big_endian envMeasure (sgpInit 0x58)
    0x12 0x34 0x37 0xD4 0x02 0xA4 rfl rfl rfl
    (by decide) (by decide) (by decide) (by decide)

/-- C8 — For every checksum-valid self-test response, `selftest`
returns a successful boolean (never an error), and that boolean is `true`
exactly when the two data bytes are the fixed pattern `[0xD4, 0x00]`. -/
theorem selftest_pattern (env : Env) (s : Sgp30) (b0 b1 b2 : Nat)
    (hw : env.writes s.wIdx = none)
    (hr : env.reads s.rIdx = Except.ok [b0, b1, b2])
    (hc : crc8 [b0, b1] = b2) :
    (∃ r, (Sgp30.selftest env s).1 = Except.ok r) ∧
    ((Sgp30.selftest env s).1 = Except.ok true ↔ (b0 = 0xD4 ∧ b1 = 0x00)) := by
  have hv : validate_crc [b0, b1, b2] = Except.ok () := by
    simp [validate_crc, hc]
  have hrun : (Sgp30.selftest env s).1 =
      Except.ok (([b0, b1, b2] : List Nat).take 2 == [0xd4, 0x00]) := by
    unfold Sgp30.selftest Sgp30.send_command
    rw [busWrite_ok env _ s hw]
    simp only [bindStep]
    rw [read_with_crc_ok env 3
      (delayMsOp 220
        { s with
            wIdx := s.wIdx + 1,
            trace := s.trace ++ [Event.write s.address Command.SelfTest.as_bytes] })
      [b0, b1, b2] hr rfl hv]
  rw [hrun]
  constructor
  · exact ⟨_, rfl⟩
  · simp

/-- Witness for `selftest_pattern` on the success pattern response
`[0xD4, 0x00, 0xC6]`. -/
theorem selftest_pattern_witness :
    (∃ r, (Sgp30.selftest envSelftest (Sgp30.new 0x58)).1 = Except.ok r) ∧
    ((Sgp30.selftest envSelftest (Sgp30.new 0x58)).1 = Except.ok true ↔
      ((0xD4 : Nat) = 0xD4 ∧ (0x00 : Nat) = 0x00)) :=
  selftest_pattern envSelftest (Sgp30.new 0x58) 0xD4 0x00 0xC6 rfl rfl (by decide)

/-- C9 — A checksum-validation failure on the response read aborts the
operation with `Error.Crc` and never changes the `initialized` flag: (1)
whatever the operation and state, a run that ends in `Error.Crc` leaves
`initialized` as it was; (2) `read_with_crc` itself returns `Error.Crc`
and preserves the flag whenever the transport read succeeded but the
buffer fails validation; (3) concretely for `measure`, a corrupted 6-byte
response makes the call return `Error.Crc` with the flag unchanged. -/
theorem crc_error_frame :
    (∀ op env s oe s2, runOp op env s = some (oe, s2) → oe = some Error.Crc →
       s2.initialized = s.initialized) ∧
    (∀ env s n bytes, env.reads s.rIdx = Except.ok bytes →
       validate_crc (bytes.take n ++ List.replicate (n - bytes.length) 0) =
         Except.error Error.Crc →
       (Sgp30.read_with_crc env n s).1 = Except.error Error.Crc ∧
       (Sgp30.read_with_crc env n s).2.initialized = s.initialized) ∧
    (∀ env s bytes, s.initialized = true → env.writes s.wIdx = none →
       env.reads s.rIdx = Except.ok bytes → bytes.length = 6 →
       validate_crc bytes = Except.error Error.Crc →
       (Sgp30.measure env s).1 = Except.error Error.Crc ∧
       (Sgp30.measure env s).2.initialized = s.initialized) := by
  refine ⟨?_, ?_, ?_⟩
  · intro op env s oe s2 h hcrc
    rcases runOp_initialized_cases op env s oe s2 h with hp | ⟨_, hnone, _⟩
    · exact hp
    · rw [hnone] at hcrc
      exact Option.noConfusion hcrc
  · intro env s n bytes hr hv
    rw [read_with_crc_of_invalid env n s bytes hr hv]
    exact ⟨rfl, rfl⟩
  · intro env s bytes hinit hw hr hlen hv
    have hv2 : validate_crc (bytes.take 6 ++ List.replicate (6 - bytes.length) 0) =
        Except.error Error.Crc := by
      rw [← hlen]
      simpa using hv
    unfold Sgp30.measure
    rw [if_neg (by simp [hinit])]
    unfold Sgp30.send_command
    rw [busWrite_ok env _ s hw]
    simp only [bindStep]
    rw [read_with_crc_of_invalid env 6
      (delayMsOp 12
        { s with
            wIdx := s.wIdx + 1,
            trace := s.trace ++ [Event.write s.address Command.MeasureAirQuality.as_bytes] })
      bytes hr hv2]
    simp [delayMsOp]

/-- Witness for `crc_error_frame`: a corrupted measurement response makes
`measure` fail with the checksum error and keeps `initialized` intact. -/
theorem crc_error_frame_witness :
    (Sgp30.measure envBadCrc (sgpInit 0x58)).1 = Except.error Error.Crc ∧
    (Sgp30.measure envBadCrc (sgpInit 0x58)).2.initialized =
      (sgpInit 0x58).initialized :=
  crc_error_frame.2.2 envBadCrc (sgpInit 0x58)
    [0xBE, 0xEF, 0x91, 0xBE, 0xEF, 0x92] rfl rfl rfl rfl rfl

/-- C10 — The `initialized` flag is monotone: it is `false` on a fresh
driver; every completed run of any operation keeps it `true` once `true`;
operations other than `init`/`force_init` never change it; `force_init`
sets it to `true` exactly when its write is accepted and leaves it
untouched when the write fails; and once the flag is `true`, `init` is a
pure no-op forever, while on an uninitialized driver `init` is exactly
`force_init`. -/
theorem initialized_flag_monotone :
    (∀ a, (Sgp30.new a).initialized = false) ∧
    (∀ op env s oe s2, runOp op env s = some (oe, s2) →
       s.initialized = true → s2.initialized = true) ∧
    (∀ op env s oe s2, runOp op env s = some (oe, s2) →
       op ≠ Op.initOp → op ≠ Op.forceInitOp → s2.initialized = s.initialized) ∧
    (∀ env s, env.writes s.wIdx = none →
       (Sgp30.force_init env s).1 = Except.ok () ∧
       (Sgp30.force_init env s).2.initialized = true) ∧
    (∀ env s e, env.writes s.wIdx = some e →
       (Sgp30.force_init env s).2.initialized = s.initialized) ∧
    (∀ env s, s.initialized = true → Sgp30.init env s = (Except.ok (), s)) ∧
    (∀ env s, s.initialized = false →
       Sgp30.init env s = Sgp30.force_init env s) := by
  refine ⟨fun a => rfl, ?_, ?_, ?_, ?_, ?_, ?_⟩
  · intro op env s oe s2 h hi
    rcases runOp_initialized_cases op env s oe s2 h with hp | ⟨_, _, ht⟩
    · rw [hp]
      exact hi
    · exact ht
  · intro op env s oe s2 h h1 h2
    rcases runOp_initialized_cases op env s oe s2 h with hp | ⟨hop, _, _⟩
    · exact hp
    · rcases hop with rfl | rfl
      · exact absurd rfl h1
      · exact absurd rfl h2
  · intro env s hw
    rw [force_init_of_write_ok env s hw]
    exact ⟨rfl, rfl⟩
  · intro env s e hw
    rw [force_init_of_write_err env s e hw]
  · intro env s hi
    unfold Sgp30.init
    rw [if_pos hi]
  · intro env s hi
    unfold Sgp30.init
    rw [if_neg (by simp [hi])]

/-- Witness for `initialized_flag_monotone` on a fresh driver and an
environment that accepts the write. -/
theorem initialized_flag_monotone_witness :
    (Sgp30.new 0x58).initialized = false ∧
    Sgp30.init envOk (sgpInit 0x58) = (Except.ok (), sgpInit 0x58) ∧
    (Sgp30.force_init envOk (Sgp30.new 0x58)).1 = Except.ok () ∧
    (Sgp30.force_init envOk (Sgp30.new 0x58)).2.initialized = true :=
  ⟨initialized_flag_monotone.1 0x58,
   initialized_flag_monotone.2.2.2.2.2.1 envOk (sgpInit 0x58) rfl,
   (initialized_flag_monotone.2.2.2.1 envOk (Sgp30.new 0x58) rfl).1,
   (initialized_flag_monotone.2.2.2.1 envOk (Sgp30.new 0x58) rfl).2⟩

end SGP30
